import Mathlib

/-!
Verification of the phantom-build pipeline.

This file embeds the decision logic of `phantombuild/phantombuild.py` and
`phantombuild/__main__.py` into Lean 4.  Python strings are modelled as
`String` (or as `List Char` where character-level reasoning is needed),
Python `dict`s as insertion-ordered association lists with overwrite-on-
duplicate semantics, raised exceptions as `Except`/`Option` error values,
and external `subprocess` invocations as entries of an explicit trace
list, with their observable outcomes (exit codes, captured stdout)
supplied as parameters of an environment record.
-/

/-- The exception classes declared at the top of `phantombuild.py`:
`RepoError`, `PatchError`, `CompileError`, `SetupError`,
`HDF5LibraryNotFound`, each carrying its message string. -/
inductive PhantomError where
  | repoError (msg : String)
  | patchError (msg : String)
  | compileError (msg : String)
  | setupError (msg : String)
  | hdf5LibraryNotFound (msg : String)
deriving DecidableEq

deriving instance DecidableEq for Except

/-- Characters removed by Python `str.strip()`: ASCII whitespace. -/
def pyIsSpace (c : Char) : Bool :=
  c = ' ' || c = '\t' || c = '\n' || c = '\x0d' || c = '\x0b' || c = '\x0c'

/-- Python `str.strip()` on a character list: drop leading and trailing
whitespace. -/
def pyStripList (l : List Char) : List Char :=
  ((l.dropWhile pyIsSpace).reverse.dropWhile pyIsSpace).reverse

/-- Python `str.strip()` on a `String`. -/
def pyStrip (s : String) : String :=
  (pyStripList s.toList).asString

/-- The four accepted canonical origin URLs listed in `get_phantom`
(`phantombuild.py`, the membership test in the `else` branch). -/
def accepted_origin_urls : List String :=
  ["git@bitbucket.org:danielprice/phantom",
   "git@bitbucket.org:danielprice/phantom.git",
   "https://bitbucket.org/danielprice/phantom",
   "https://bitbucket.org/danielprice/phantom.git"]

/-- The branch of `get_phantom` taken when `phantom_dir` exists: read
`git config --local --get remote.origin.url` (its raw stdout is the
argument), strip it, and test membership in the accepted list; on
failure raise `RepoError('phantom_dir is not Phantom')`, otherwise fall
through to `return True`. -/
def get_phantom_existing (stdout : String) : Except PhantomError Bool :=
  if ¬ (pyStrip stdout ∈ accepted_origin_urls) then
    .error (.repoError "phantom_dir is not Phantom")
  else
    .ok true

/-- Python `str.replace(' ', '')`: remove every space character
(first statement of `_convert_make_options_to_dict`). -/
def pyRemoveSpaces (l : List Char) : List Char :=
  l.filter (fun c => c ≠ ' ')

/-- Python `str.split(sep)` for a one-character separator: split on every
occurrence, keeping empty segments; `"".split(sep) == ['']`. -/
def pySplitChar (sep : Char) : List Char → List (List Char)
  | [] => [[]]
  | c :: cs =>
    match pySplitChar sep cs with
    | h :: t => if c = sep then [] :: h :: t else (c :: h) :: t
    | [] => [[]]

/-- Number of occurrences of a character in a list. -/
def countC (c : Char) : List Char → Nat
  | [] => 0
  | x :: xs => (if x = c then 1 else 0) + countC c xs

/-- Evaluate a fallible function on each list element, left to right,
stopping at the first failure (the order a Python comprehension raises
in). -/
def pyMapOption (f : α → Option β) : List α → Option (List β)
  | [] => some []
  | x :: xs =>
    match f x with
    | none => none
    | some y =>
      match pyMapOption f xs with
      | none => none
      | some ys => some (y :: ys)

/-- One entry of the dict comprehension in `_convert_make_options_to_dict`:
`_s.split('=')[0]` and `_s.split('=')[1]`; `none` models the `IndexError`
raised when the segment has no `=` (so `split` yields fewer than two
parts). -/
def parse_make_option (seg : List Char) : Option (List Char × List Char) :=
  match pySplitChar '=' seg with
  | k :: v :: _ => some (k, v)
  | _ => none

/-- Python dict insertion: a duplicate key overwrites the stored value in
place, a new key is appended. -/
def pyDictInsert (d : List (List Char × List Char)) (kv : List Char × List Char) :
    List (List Char × List Char) :=
  if d.any (fun p => p.1 = kv.1) then
    d.map (fun p => if p.1 = kv.1 then (p.1, kv.2) else p)
  else d ++ [kv]

/-- `_convert_make_options_to_dict` from `__main__.py`: remove spaces,
split the string on `,`, and build the dict mapping each segment's
`split('=')[0]` to its `split('=')[1]`. -/
def convert_make_options_to_dict (s : List Char) : Option (List (List Char × List Char)) := do
  let s1 := pyRemoveSpaces s
  let pairs ← pyMapOption parse_make_option (pySplitChar ',' s1)
  pure (pairs.foldl pyDictInsert [])

/-- Splitting a pair on the first `=` only, as the spec describes it:
key is everything before the first `=`, value everything after it. -/
def parse_make_option_first_eq (seg : List Char) : Option (List Char × List Char) :=
  if '=' ∈ seg then
    some (seg.takeWhile (fun c => c ≠ '='), (seg.dropWhile (fun c => c ≠ '=')).drop 1)
  else none

/-- The spec's description of `_convert_make_options_to_dict`: same
pipeline, but each pair split on the first `=` only. -/
def convert_make_options_first_eq (s : List Char) : Option (List (List Char × List Char)) := do
  let s1 := pyRemoveSpaces s
  let pairs ← pyMapOption parse_make_option_first_eq (pySplitChar ',' s1)
  pure (pairs.foldl pyDictInsert [])

/-- Index of the last occurrence of a character, as Python `str.rfind`
(restricted to reporting the index when present). -/
def lastIdxOf (c : Char) : List Char → Option Nat
  | [] => none
  | x :: xs =>
    match lastIdxOf c xs with
    | some i => some (i + 1)
    | none => if x = c then some 0 else none

/-- The start index of `pathlib.PurePath.suffix` of a file name: the index
`i` of the last `.` provided `0 < i < len(name) - 1`; otherwise the
suffix is empty.  Leading-dot names (`.hidden`) and trailing-dot names
(`phantom.`) therefore have no suffix. -/
def pySuffixStart (name : List Char) : Option Nat :=
  match lastIdxOf '.' name with
  | some i => if 0 < i ∧ i + 1 < name.length then some i else none
  | none => none

/-- `pathlib.PurePath.stem` of a file name: the name with its suffix
removed. -/
def pyStem (name : List Char) : List Char :=
  match pySuffixStart name with
  | some i => name.take i
  | none => name

/-- `pathlib.PurePath.suffix` of a file name. -/
def pySuffix (name : List Char) : List Char :=
  match pySuffixStart name with
  | some i => name.drop i
  | none => []

/-- A resolved absolute path, as `_resolved_path` produces: the components
of the parent directory plus the final component (`.name`). -/
structure PyPath where
  parentComponents : List (List Char)
  name : List Char
deriving DecidableEq

/-- The directory the `git clone` in `get_phantom` creates when
`phantom_dir` does not exist: the clone target argument is
`_phantom_dir.stem` and the working directory is `_phantom_dir.parent`,
so the clone lands at `parent / stem(name)`. -/
def clone_target (p : PyPath) : PyPath :=
  ⟨p.parentComponents, pyStem p.name⟩

/-- The branch of `get_phantom` taken when `phantom_dir` does not exist:
run the clone (exit code `cloneRc`); on non-zero exit raise
`RepoError('Fail to clone repo')`, otherwise return `True`.  The second
component lists the directories the successful clone created. -/
def get_phantom_clone (p : PyPath) (cloneRc : Int) :
    Except PhantomError Bool × List PyPath :=
  if cloneRc ≠ 0 then (.error (.repoError "Fail to clone repo"), [])
  else (.ok true, [clone_target p])

/-- The git commands `checkout_phantom_version` can issue, in source
order. -/
inductive GitCmd where
  | revParseHead
  | revParseShort
  | checkoutCmd (hash : String)
  | statusPorcelain
  | resetHead
  | cleanForce
  | checkoutTracked
deriving DecidableEq

/-- Observable outcomes of the git commands `checkout_phantom_version`
runs: captured stdout of the two queries and exit codes of the mutating
commands. -/
structure GitEnv where
  headHash : String
  statusOut : String
  checkoutRc : Int
  resetRc : Int
  cleanRc : Int
  checkoutTrackedRc : Int

/-- The second half of `checkout_phantom_version` (from `# Check if clean`):
run `git status --porcelain`; if its stripped output is non-empty, run
`git reset HEAD`, `git clean --force`, `git checkout -- *` (all three,
collecting their results), and raise `RepoError('Failed to clean repo')`
if any exited non-zero. -/
def clean_phase (t : List GitCmd) (env : GitEnv) :
    List GitCmd × Option PhantomError :=
  let t1 := t ++ [.statusPorcelain]
  if ¬ (pyStrip env.statusOut = "") then
    let t2 := t1 ++ [.resetHead, .cleanForce, .checkoutTracked]
    if env.resetRc ≠ 0 ∨ env.cleanRc ≠ 0 ∨ env.checkoutTrackedRc ≠ 0 then
      (t2, some (.repoError "Failed to clean repo"))
    else (t2, none)
  else (t1, none)

/-- `checkout_phantom_version` from `phantombuild.py`: read `git rev-parse
HEAD` and `git rev-parse --short <required>`; if HEAD differs from the
required hash, run `git checkout <required>` and raise
`RepoError('Failed to checkout required version')` on non-zero exit;
then run the clean phase.  The first component is the trace of issued
git commands, the second the raised error, if any. -/
def checkout_phantom_version (required : String) (env : GitEnv) :
    List GitCmd × Option PhantomError :=
  let t0 : List GitCmd := [.revParseHead, .revParseShort]
  if ¬ (env.headHash = required) then
    if env.checkoutRc ≠ 0 then
      (t0 ++ [.checkoutCmd required],
       some (.repoError "Failed to checkout required version"))
    else clean_phase (t0 ++ [.checkoutCmd required]) env
  else clean_phase t0 env

/-- Inputs of `build_phantom`: the `SETUP`/`SYSTEM` selectors, the
resolved HDF5 location (as the absolute path string `str(resolve())`
would produce) together with whether it exists on disk, the optional
extra makefile options in mapping order, and the exit code of `make`. -/
structure BuildEnv where
  setup : String
  system : String
  hdf5_location : Option String
  hdf5_exists : Bool
  extra_makefile_options : Option (List (String × String))
  makeReturncode : Int

/-- The `key + '=' + val` arguments appended for
`extra_makefile_options`, in mapping order (Python dicts preserve
insertion order). -/
def extra_options_args (e : BuildEnv) : List String :=
  match e.extra_makefile_options with
  | some l => l.map (fun kv => kv.1 ++ "=" ++ kv.2)
  | none => []

/-- The initial `make_command` of `build_phantom`:
`['make', 'SETUP=' + setup, 'SYSTEM=' + system, 'phantom', 'setup']`. -/
def base_make_command (e : BuildEnv) : List String :=
  ["make", "SETUP=" ++ e.setup, "SYSTEM=" ++ e.system, "phantom", "setup"]

/-- Shared tail of `build_phantom`: run the finished make command and
raise `CompileError('Phantom failed to compile')` on non-zero exit.  The
second component records the subprocess invocations issued. -/
def run_make (cmd : List String) (rc : Int) :
    Except PhantomError Bool × List (List String) :=
  if rc ≠ 0 then (.error (.compileError "Phantom failed to compile"), [cmd])
  else (.ok true, [cmd])

/-- `build_phantom` from `phantombuild.py`: build the base make command;
if an HDF5 location is given, raise
`HDF5LibraryNotFound('Cannot determine HDF5 library location')` when it
does not exist (before any subprocess is started), else append
`HDF5=yes` and `HDF5ROOT=<resolved location>`; append the extra
makefile options; run `make`. -/
def build_phantom (e : BuildEnv) :
    Except PhantomError Bool × List (List String) :=
  match e.hdf5_location with
  | some loc =>
    if ¬ e.hdf5_exists then
      (.error (.hdf5LibraryNotFound "Cannot determine HDF5 library location"), [])
    else
      run_make (base_make_command e ++ ["HDF5=yes", "HDF5ROOT=" ++ loc]
                ++ extra_options_args e) e.makeReturncode
  | none =>
    run_make (base_make_command e ++ extra_options_args e) e.makeReturncode

/-- The filesystem and subprocess actions of `setup_calculation`, in
source order. -/
inductive SetupOp where
  | mkdirRunDir
  | copyBinary (file : String)
  | copySetupFile
  | copyInFile
  | popenPhantomsetup
  | copyInFileAgain
deriving DecidableEq

/-- Inputs of `setup_calculation`: whether the run directory already
exists, and the exit status the `./phantomsetup` process terminates
with. -/
structure SetupEnv where
  runDirExists : Bool
  setupExitCode : Int

/-- The value of `result.returncode` read by `setup_calculation` after the
output-streaming loop.  `subprocess.Popen.returncode` is set only by
`poll()`, `wait()` or `communicate()`; `setup_calculation` calls none of
them (it only iterates `result.stdout` to end of stream), so the
attribute is still `None` there, whatever exit status the process
actually terminated with. -/
def popen_returncode_unwaited (_actualExitCode : Int) : Option Int :=
  none

/-- Python `x != 0` where `x` may be `None`: `None != 0` is `True`. -/
def pyNeZero (x : Option Int) : Bool :=
  match x with
  | none => true
  | some v => v ≠ 0

/-- `setup_calculation` from `phantombuild.py`: create the run directory
if missing, copy the three binaries, copy `{prefix}.setup` and
`{prefix}.in`, run `./phantomsetup prefix` streaming its output, then
test `result.returncode != 0`: raise
`SetupError('Phantom failed to set up calculation')` when true,
otherwise copy the `.in` file a second time and return `True`.  The
first component is the trace of performed actions, the second the
raised error, if any. -/
def setup_calculation (env : SetupEnv) : List SetupOp × Option PhantomError :=
  let t0 : List SetupOp := if env.runDirExists then [] else [.mkdirRunDir]
  let t1 := t0 ++ [.copyBinary "phantom", .copyBinary "phantomsetup",
                   .copyBinary "phantom_version", .copySetupFile, .copyInFile,
                   .popenPhantomsetup]
  if pyNeZero (popen_returncode_unwaited env.setupExitCode) then
    (t1, some (.setupError "Phantom failed to set up calculation"))
  else
    (t1 ++ [.copyInFileAgain], none)

/-- What `setup_calculation` would do if the exit status of the setup
binary were actually observed at the `returncode` test, i.e. if the
process had been waited on, as the spec describes. -/
def setup_calculation_spec (env : SetupEnv) : List SetupOp × Option PhantomError :=
  let t0 : List SetupOp := if env.runDirExists then [] else [.mkdirRunDir]
  let t1 := t0 ++ [.copyBinary "phantom", .copyBinary "phantomsetup",
                   .copyBinary "phantom_version", .copySetupFile, .copyInFile,
                   .popenPhantomsetup]
  if pyNeZero (some env.setupExitCode) then
    (t1, some (.setupError "Phantom failed to set up calculation"))
  else
    (t1 ++ [.copyInFileAgain], none)

/-- The errors `main` in `__main__.py` can raise before any orchestrator
work happens: the explicit `ValueError` for mismatched option counts,
the `IndexError` from `_convert_make_options_to_dict` on a malformed
flag string, and Python `UnboundLocalError`s for the conditionally
assigned locals read in the loop body. -/
inductive MainError where
  | valueError
  | indexError
  | unboundLocalPatch
  | unboundLocalExtraFlags
deriving DecidableEq

/-- The argument record of one `build_and_setup` call issued by `main`'s
loop. -/
structure OrchestratorCall where
  runPfx : String
  run_dir : String
  setup_file : String
  in_file : String
  job_script : Option String
  phantom_dir : String
  phantom_version : Option String
  phantom_patches : List String
  phantom_setup : String
  phantom_system : String
  phantom_extra_flags : List (List Char × List Char)
  hdf5_dir : Option String
deriving DecidableEq

/-- The arguments `main` receives.  `phantom_patch` is `none` only when
`main` is called directly without the CLI layer; click always passes a
tuple for a `multiple=True` option. -/
structure CliArgs where
  runPfx : String
  run_dir : List String
  run_setup_file : List String
  run_in_file : List String
  run_job_script : Option String
  phantom_setup : String
  phantom_system : String
  phantom_extra_flags : Option String
  phantom_dir : Option String
  phantom_version : Option String
  phantom_patch : Option (List String)
  phantom_hdf5_dir : Option String

/-- Python `zip` of three lists: stop at the shortest. -/
def zip3 : List α → List β → List γ → List (α × β × γ)
  | a :: as, b :: bs, c :: cs => (a, b, c) :: zip3 as bs cs
  | _, _, _ => []

/-- The `for` loop of `main`: one `build_and_setup` call per zipped run
descriptor.  Each iteration evaluates the call's keyword arguments,
reading `_phantom_patch` and then `_phantom_extra_flags`; a local that
was never assigned (modelled as `none`) raises `UnboundLocalError` at
that read. -/
def main_loop (a : CliArgs) (phantom_dir : String)
    (patchVar : Option (List String))
    (flagsVar : Option (List (List Char × List Char))) :
    List (String × String × String) → Except MainError (List OrchestratorCall)
  | [] => .ok []
  | (rd, sf, inf) :: rest =>
    match patchVar with
    | none => .error .unboundLocalPatch
    | some patches =>
      match flagsVar with
      | none => .error .unboundLocalExtraFlags
      | some flags =>
        match main_loop a phantom_dir patchVar flagsVar rest with
        | .error e => .error e
        | .ok calls =>
          .ok ({ runPfx := a.runPfx, run_dir := rd, setup_file := sf,
                 in_file := inf, job_script := a.run_job_script,
                 phantom_dir := phantom_dir,
                 phantom_version := a.phantom_version,
                 phantom_patches := patches,
                 phantom_setup := a.phantom_setup,
                 phantom_system := a.phantom_system,
                 phantom_extra_flags := flags,
                 hdf5_dir := a.phantom_hdf5_dir } :: calls)

/-- `main` from `__main__.py`: validate that the three run option lists
have equal lengths (else `ValueError`), default `phantom_dir` to
`'phantom'`, assign `_phantom_patch` only when `phantom_patch` is not
`None`, assign `_phantom_extra_flags` only when `phantom_extra_flags`
is not `None` (converting it, which may raise `IndexError`), then loop
over the zipped run descriptors issuing one `build_and_setup` call
each.  Returns the calls issued, in order, or the first raised error.
(Named `cli_main` here because `main` is reserved in Lean.) -/
def cli_main (a : CliArgs) : Except MainError (List OrchestratorCall) :=
  if ¬ (a.run_dir.length = a.run_setup_file.length ∧
        a.run_setup_file.length = a.run_in_file.length) then
    .error .valueError
  else
    let phantom_dir := a.phantom_dir.getD "phantom"
    let patchVar : Option (List String) := a.phantom_patch
    match a.phantom_extra_flags with
    | some s =>
      match convert_make_options_to_dict s.toList with
      | none => .error .indexError
      | some flags =>
        main_loop a phantom_dir patchVar (some flags)
          (zip3 a.run_dir a.run_setup_file a.run_in_file)
    | none =>
      main_loop a phantom_dir patchVar none
        (zip3 a.run_dir a.run_setup_file a.run_in_file)

/-- A CLI invocation of the program: click delivers `multiple=True`
option values as tuples — an empty tuple when the option is absent — so
`phantom_patch` reaches `main` as a (possibly empty) list, never as
`None`; plain optional options reach `main` as `None` when absent. -/
def cli_invoke (runPfx : String) (run_dir run_setup_file run_in_file : List String)
    (run_job_script : Option String) (phantom_setup phantom_system : String)
    (phantom_extra_flags phantom_dir phantom_version : Option String)
    (phantom_patch : List String) (phantom_hdf5_dir : Option String) :
    Except MainError (List OrchestratorCall) :=
  cli_main
    { runPfx := runPfx, run_dir := run_dir,
      run_setup_file := run_setup_file, run_in_file := run_in_file,
      run_job_script := run_job_script, phantom_setup := phantom_setup,
      phantom_system := phantom_system,
      phantom_extra_flags := phantom_extra_flags,
      phantom_dir := phantom_dir, phantom_version := phantom_version,
      phantom_patch := some phantom_patch,
      phantom_hdf5_dir := phantom_hdf5_dir }

/-- The pipeline steps of the orchestrator, in spec order. -/
inductive PipeStep where
  | getRepo
  | checkoutVersion
  | applyPatch (path : String)
  | buildStep
  | setupStep
deriving DecidableEq

/-- Outcomes of the individual pipeline steps for one run descriptor. -/
structure PipeEnv where
  getRepoOk : Bool
  checkoutOk : Bool
  patchOk : String → Bool
  buildOk : Bool
  setupOk : Bool

/-- Whether a pipeline step succeeds in the given environment. -/
def stepOk (env : PipeEnv) : PipeStep → Bool
  | .getRepo => env.getRepoOk
  | .checkoutVersion => env.checkoutOk
  | .applyPatch p => env.patchOk p
  | .buildStep => env.buildOk
  | .setupStep => env.setupOk

/-- Run a list of steps strictly in order, stopping at the first failure:
the trace contains every step that was started, and the flag is whether
all of them succeeded. -/
def runSeq (env : PipeEnv) : List PipeStep → List PipeStep × Bool
  | [] => ([], true)
  | s :: rest =>
    if stepOk env s then
      let r := runSeq env rest
      (s :: r.1, r.2)
    else ([s], false)

/-- The build phase followed by the setup phase: build, and on success
set up the calculation. -/
def build_then_setup_phase (env : PipeEnv) : List PipeStep × Bool :=
  if env.buildOk then
    if env.setupOk then ([.buildStep, .setupStep], true)
    else ([.buildStep, .setupStep], false)
  else ([.buildStep], false)

/-- The patch phase: apply each patch in the given order, aborting on the
first failure, then continue with build and setup. -/
def patch_phase (env : PipeEnv) : List String → List PipeStep × Bool
  | [] => build_then_setup_phase env
  | p :: ps =>
    if env.patchOk p then
      let r := patch_phase env ps
      (.applyPatch p :: r.1, r.2)
    else ([.applyPatch p], false)

/-- Modelled from the spec: `build_and_setup` is imported by
`__main__.py` from the library module, but its definition is absent from
the sources provided; spec §4.6 describes it as running, for one run
descriptor, "sequentially — get repository, checkout version (if a
version is specified), apply each patch in the given order (if any),
build, then set up the calculation", with "any failure in a step aborts
the remaining steps for that run descriptor".  The first component is
the trace of started steps, the second whether the whole pipeline
succeeded. -/
def build_and_setup (phantom_version : Option String)
    (phantom_patches : List String) (env : PipeEnv) : List PipeStep × Bool :=
  if env.getRepoOk then
    let rest :=
      match phantom_version with
      | some _ =>
        if env.checkoutOk then
          let r := patch_phase env phantom_patches
          (PipeStep.checkoutVersion :: r.1, r.2)
        else ([.checkoutVersion], false)
      | none => patch_phase env phantom_patches
    (.getRepo :: rest.1, rest.2)
  else ([.getRepo], false)

/-- The full step list the spec prescribes for one run descriptor:
get repository; checkout exactly when a version is specified; the
patches in the given order; build; set up. -/
def plannedSteps (phantom_version : Option String)
    (phantom_patches : List String) : List PipeStep :=
  [.getRepo]
    ++ (match phantom_version with | some _ => [.checkoutVersion] | none => [])
    ++ phantom_patches.map .applyPatch
    ++ [.buildStep, .setupStep]

/-! ## Helper lemmas -/

/-- Helper: whether an `Except` value is a success. -/
def except_is_ok : Except ε α → Bool
  | .ok _ => true
  | .error _ => false

lemma split_countC_zero (c : Char) (l : List Char) (h : countC c l = 0) :
    pySplitChar c l = [l] := by
  induction l with
  | nil => rfl
  | cons x xs ih =>
    unfold countC at h
    have hx : ¬ x = c := by
      intro he
      simp [he] at h
    rw [if_neg hx] at h
    simp only [Nat.zero_add] at h
    simp [pySplitChar, ih h, hx]

lemma split_countC_one (c : Char) (l : List Char) (h : countC c l = 1) :
    pySplitChar c l =
      [l.takeWhile (fun x => x ≠ c), (l.dropWhile (fun x => x ≠ c)).drop 1] := by
  induction l with
  | nil => simp [countC] at h
  | cons x xs ih =>
    by_cases hx : x = c
    · subst hx
      unfold countC at h
      rw [if_pos rfl] at h
      have hz : countC x xs = 0 := by omega
      simp [pySplitChar, split_countC_zero x xs hz]
    · unfold countC at h
      rw [if_neg hx] at h
      simp only [Nat.zero_add] at h
      have hrec := ih h
      simp [pySplitChar, hrec, hx]

lemma mem_of_countC_one (c : Char) (l : List Char) (h : countC c l = 1) :
    c ∈ l := by
  induction l with
  | nil => simp [countC] at h
  | cons x xs ih =>
    by_cases hx : x = c
    · subst hx; exact List.mem_cons_self x xs
    · unfold countC at h
      rw [if_neg hx] at h
      simp only [Nat.zero_add] at h
      exact List.mem_cons_of_mem x (ih h)

lemma parse_make_option_count_one (seg : List Char) (h : countC '=' seg = 1) :
    parse_make_option seg = parse_make_option_first_eq seg := by
  have hs := split_countC_one '=' seg h
  have hm : '=' ∈ seg := mem_of_countC_one '=' seg h
  unfold parse_make_option parse_make_option_first_eq
  rw [hs]
  simp [hm]

lemma pyMapOption_congr {α β : Type} (f g : α → Option β) (l : List α)
    (h : ∀ x ∈ l, f x = g x) : pyMapOption f l = pyMapOption g l := by
  induction l with
  | nil => rfl
  | cons x xs ih =>
    have hx := h x (List.mem_cons_self x xs)
    have hxs := ih (fun y hy => h y (List.mem_cons_of_mem x hy))
    simp [pyMapOption, hx, hxs]

/-! ## Claims -/

/-- C3: on every comma-separated list of `key=value` pairs (each pair
containing exactly one `=`), `_convert_make_options_to_dict` removes the
spaces and splits each pair at its (unique, hence first) `=`; in
particular `"A=1,B=2"` and `"A=1, B=2"` both yield the mapping
`{A ↦ 1, B ↦ 2}`. -/
theorem convert_make_options_splits_on_first_eq :
    (∀ s : List Char,
        (∀ seg ∈ pySplitChar ',' (pyRemoveSpaces s), countC '=' seg = 1) →
        convert_make_options_to_dict s = convert_make_options_first_eq s) ∧
    convert_make_options_to_dict ("A=1,B=2".toList) =
      some [("A".toList, "1".toList), ("B".toList, "2".toList)] ∧
    convert_make_options_to_dict ("A=1, B=2".toList) =
      some [("A".toList, "1".toList), ("B".toList, "2".toList)] := by
  refine ⟨?_, by decide, by decide⟩
  intro s hseg
  have hmap : pyMapOption parse_make_option (pySplitChar ',' (pyRemoveSpaces s))
      = pyMapOption parse_make_option_first_eq (pySplitChar ',' (pyRemoveSpaces s)) :=
    pyMapOption_congr _ _ _ (fun seg hm => parse_make_option_count_one seg (hseg seg hm))
  simp [convert_make_options_to_dict, convert_make_options_first_eq, hmap]

/-- Witness for C3 at the concrete input `"DUST=yes"`. -/
theorem convert_make_options_splits_on_first_eq_witness :
    convert_make_options_to_dict ("DUST=yes".toList) =
      convert_make_options_first_eq ("DUST=yes".toList) :=
  convert_make_options_splits_on_first_eq.1 ("DUST=yes".toList) (by decide)

/-- C4: with the repository directory present, origin-URL validation
succeeds exactly on the four accepted canonical URL forms and raises
`RepoError` on every other origin string. -/
theorem origin_url_validation_exact (url : String) (h : pyStrip url = url) :
    ((get_phantom_existing url = .ok true) ↔ url ∈ accepted_origin_urls) ∧
    (url ∉ accepted_origin_urls →
      get_phantom_existing url = .error (.repoError "phantom_dir is not Phantom")) := by
  by_cases hm : url ∈ accepted_origin_urls <;>
    simp [get_phantom_existing, h, hm]

/-- Witness for C4 at the SSH canonical form with `.git` suffix. -/
theorem origin_url_validation_exact_witness :
    pyStrip "git@bitbucket.org:danielprice/phantom.git" =
      "git@bitbucket.org:danielprice/phantom.git" ∧
    ((get_phantom_existing "git@bitbucket.org:danielprice/phantom.git" = .ok true) ↔
      "git@bitbucket.org:danielprice/phantom.git" ∈ accepted_origin_urls) ∧
    ("git@bitbucket.org:danielprice/phantom.git" ∉ accepted_origin_urls →
      get_phantom_existing "git@bitbucket.org:danielprice/phantom.git" =
        .error (.repoError "phantom_dir is not Phantom")) :=
  ⟨by decide, origin_url_validation_exact _ (by decide)⟩

lemma pySuffixStart_bounds (l : List Char) (i : Nat)
    (h : pySuffixStart l = some i) : 0 < i ∧ i + 1 < l.length := by
  unfold pySuffixStart at h
  split at h
  · split at h
    · rename_i hc
      injection h with he
      subst he
      exact hc
    · exact absurd h (by simp)
  · exact absurd h (by simp)

/-- C10 counterexample: for the final component `.hidden` — which does
contain a dot — `pathlib`'s stem is the whole name (a leading dot starts
no suffix), so the clone target coincides with `phantom_dir` itself,
refuting the claim's "for every final component containing a dot the
clone is created at a different path". -/
theorem clone_target_dot_counterexample :
    ('.' ∈ (PyPath.mk [] (".hidden".toList)).name) ∧
    clone_target (PyPath.mk [] (".hidden".toList)) =
      PyPath.mk [] (".hidden".toList) := by decide

/-- C10 (amended): the clone lands at `parent / stem(name)`; whenever the
final component has a nonempty `pathlib` suffix (a dot at an interior
position), the clone target differs from `phantom_dir`, and after a
successful clone the created directory list contains the target but not
`phantom_dir` itself. -/
theorem clone_target_differs_for_proper_suffix (p : PyPath) (rc : Int)
    (h : pySuffix p.name ≠ []) :
    clone_target p ≠ p ∧
    (rc = 0 →
      (get_phantom_clone p rc).2 = [clone_target p] ∧
      p ∉ (get_phantom_clone p rc).2) := by
  obtain ⟨i, hi⟩ : ∃ i, pySuffixStart p.name = some i := by
    cases hq : pySuffixStart p.name with
    | some i => exact ⟨i, rfl⟩
    | none =>
      exfalso
      apply h
      unfold pySuffix
      rw [hq]
  obtain ⟨hpos, hlt⟩ := pySuffixStart_bounds _ _ hi
  have hstem : pyStem p.name = p.name.take i := by
    unfold pyStem
    rw [hi]
  have hneq : clone_target p ≠ p := by
    intro hc
    have hname : pyStem p.name = p.name := congrArg PyPath.name hc
    rw [hstem] at hname
    have hlen := congrArg List.length hname
    rw [List.length_take] at hlen
    omega
  refine ⟨hneq, fun hrc => ?_⟩
  subst hrc
  constructor
  · simp [get_phantom_clone]
  · simp only [get_phantom_clone]
    norm_num
    exact fun hpc => hneq hpc.symm

/-- Witness for C10's amended statement at the concrete path
`/phantom.git` (suffix `.git`). -/
theorem clone_target_differs_for_proper_suffix_witness :
    pySuffix (PyPath.mk [] ("phantom.git".toList)).name ≠ [] ∧
    (clone_target (PyPath.mk [] ("phantom.git".toList)) ≠
        PyPath.mk [] ("phantom.git".toList) ∧
      ((0 : Int) = 0 →
        (get_phantom_clone (PyPath.mk [] ("phantom.git".toList)) 0).2 =
          [clone_target (PyPath.mk [] ("phantom.git".toList))] ∧
        PyPath.mk [] ("phantom.git".toList) ∉
          (get_phantom_clone (PyPath.mk [] ("phantom.git".toList)) 0).2)) :=
  ⟨by decide, clone_target_differs_for_proper_suffix _ 0 (by decide)⟩

/-- C5: when HEAD already equals the required commit hash, no
`git checkout <hash>` command is issued, yet the three-step clean
sequence still runs exactly when the (stripped) porcelain status is
non-empty, and any of the three clean sub-steps exiting non-zero raises
`RepoError`. -/
theorem checkout_version_idempotent (req : String) (env : GitEnv)
    (h : env.headHash = req) :
    ((checkout_phantom_version req env).1 =
      [GitCmd.revParseHead, GitCmd.revParseShort, GitCmd.statusPorcelain] ++
        (if ¬ (pyStrip env.statusOut = "") then
          [GitCmd.resetHead, GitCmd.cleanForce, GitCmd.checkoutTracked]
         else [])) ∧
    (∀ hsh : String, GitCmd.checkoutCmd hsh ∉ (checkout_phantom_version req env).1) ∧
    (¬ (pyStrip env.statusOut = "") →
      (env.resetRc ≠ 0 ∨ env.cleanRc ≠ 0 ∨ env.checkoutTrackedRc ≠ 0) →
      (checkout_phantom_version req env).2 =
        some (.repoError "Failed to clean repo")) := by
  have hcv : checkout_phantom_version req env =
      clean_phase [GitCmd.revParseHead, GitCmd.revParseShort] env := by
    simp [checkout_phantom_version, h]
  by_cases hd : pyStrip env.statusOut = ""
  · refine ⟨?_, ?_, ?_⟩
    · simp [hcv, clean_phase, hd]
    · intro hsh
      simp [hcv, clean_phase, hd]
    · intro hc
      exact absurd hd hc
  · by_cases hrc : env.resetRc ≠ 0 ∨ env.cleanRc ≠ 0 ∨ env.checkoutTrackedRc ≠ 0
    · refine ⟨?_, ?_, ?_⟩
      · simp [hcv, clean_phase, hd, hrc]
      · intro hsh
        simp [hcv, clean_phase, hd, hrc]
      · intro _ _
        simp [hcv, clean_phase, hd, hrc]
    · refine ⟨?_, ?_, ?_⟩
      · simp [hcv, clean_phase, hd, hrc]
      · intro hsh
        simp [hcv, clean_phase, hd, hrc]
      · intro _ hc
        exact absurd hc hrc

/-- Witness for C5: HEAD already at the required hash, dirty tree, and a
failing `git reset HEAD` sub-step. -/
theorem checkout_version_idempotent_witness :
    (GitCmd.checkoutCmd "abc123" ∉
      (checkout_phantom_version "abc123"
        { headHash := "abc123", statusOut := " M file", checkoutRc := 0,
          resetRc := 1, cleanRc := 0, checkoutTrackedRc := 0 }).1) ∧
    (checkout_phantom_version "abc123"
        { headHash := "abc123", statusOut := " M file", checkoutRc := 0,
          resetRc := 1, cleanRc := 0, checkoutTrackedRc := 0 }).2 =
      some (.repoError "Failed to clean repo") :=
  ⟨(checkout_version_idempotent "abc123" _ rfl).2.1 "abc123",
   (checkout_version_idempotent "abc123" _ rfl).2.2 (by decide) (by decide)⟩

/-- C6: calling `build_phantom` with an HDF5 location that does not exist
raises `HDF5LibraryNotFound` and issues no build invocation; with an
existing location, the issued make command carries `HDF5=yes` and
`HDF5ROOT=<resolved absolute path>`. -/
theorem build_phantom_hdf5 (e : BuildEnv) (loc : String)
    (h : e.hdf5_location = some loc) :
    (e.hdf5_exists = false →
      build_phantom e =
        (.error (.hdf5LibraryNotFound "Cannot determine HDF5 library location"),
         [])) ∧
    (e.hdf5_exists = true →
      (build_phantom e).2 =
        [base_make_command e ++ ["HDF5=yes", "HDF5ROOT=" ++ loc]
          ++ extra_options_args e]) := by
  constructor
  · intro hex
    simp [build_phantom, h, hex]
  · intro hex
    by_cases hrc : e.makeReturncode ≠ 0 <;>
      simp [build_phantom, h, hex, run_make, hrc]

/-- Witness for C6: a nonexistent HDF5 location aborts before any build
invocation. -/
theorem build_phantom_hdf5_witness :
    build_phantom
        { setup := "disc", system := "gfortran",
          hdf5_location := some "/opt/hdf5", hdf5_exists := false,
          extra_makefile_options := none, makeReturncode := 0 } =
      (.error (.hdf5LibraryNotFound "Cannot determine HDF5 library location"),
       []) :=
  (build_phantom_hdf5 _ "/opt/hdf5" rfl).1 rfl

/-- C7: every issued build command starts with
`make SETUP=<setup> SYSTEM=<system> phantom setup`; with no HDF5
location and no extra flags it is exactly that, and with extra flags it
is exactly that followed by one `key=value` argument per entry, in
mapping order. -/
theorem build_phantom_command_exact (e : BuildEnv) :
    (∀ cmd ∈ (build_phantom e).2, base_make_command e <+: cmd) ∧
    (e.hdf5_location = none → e.extra_makefile_options = none →
      (build_phantom e).2 =
        [["make", "SETUP=" ++ e.setup, "SYSTEM=" ++ e.system,
          "phantom", "setup"]]) ∧
    (∀ flags, e.hdf5_location = none → e.extra_makefile_options = some flags →
      (build_phantom e).2 =
        [["make", "SETUP=" ++ e.setup, "SYSTEM=" ++ e.system,
          "phantom", "setup"]
          ++ flags.map (fun kv => kv.1 ++ "=" ++ kv.2)]) := by
  refine ⟨?_, ?_, ?_⟩
  · intro cmd hm
    cases hloc : e.hdf5_location with
    | none =>
      by_cases hrc : e.makeReturncode ≠ 0 <;>
        · simp [build_phantom, hloc, run_make, hrc] at hm
          subst hm
          exact ⟨extra_options_args e, rfl⟩
    | some loc =>
      by_cases hex : e.hdf5_exists
      · by_cases hrc : e.makeReturncode ≠ 0 <;>
          · simp [build_phantom, hloc, hex, run_make, hrc] at hm
            subst hm
            exact ⟨["HDF5=yes", "HDF5ROOT=" ++ loc] ++ extra_options_args e,
              by simp⟩
      · simp [build_phantom, hloc, hex] at hm
  · intro hloc hopt
    by_cases hrc : e.makeReturncode ≠ 0 <;>
      simp [build_phantom, hloc, run_make, hrc, extra_options_args, hopt,
        base_make_command]
  · intro flags hloc hopt
    by_cases hrc : e.makeReturncode ≠ 0 <;>
      simp [build_phantom, hloc, run_make, hrc, extra_options_args, hopt,
        base_make_command]

/-- Witness for C7: no HDF5 location, no extra flags — the command is
exactly the base make command; and with two extra flags they are
appended in mapping order. -/
theorem build_phantom_command_exact_witness :
    (build_phantom
        { setup := "disc", system := "ifort", hdf5_location := none,
          hdf5_exists := false, extra_makefile_options := none,
          makeReturncode := 0 }).2 =
      [["make", "SETUP=disc", "SYSTEM=ifort", "phantom", "setup"]] ∧
    (build_phantom
        { setup := "disc", system := "ifort", hdf5_location := none,
          hdf5_exists := false,
          extra_makefile_options := some [("ISOTHERMAL", "yes"), ("DUST", "yes")],
          makeReturncode := 0 }).2 =
      [["make", "SETUP=disc", "SYSTEM=ifort", "phantom", "setup",
        "ISOTHERMAL=yes", "DUST=yes"]] :=
  ⟨(build_phantom_command_exact _).2.1 rfl rfl,
   ((build_phantom_command_exact _).2.2 [("ISOTHERMAL", "yes"), ("DUST", "yes")]
      rfl rfl).trans (by decide)⟩

/-- C2 (code evaluation at the failing input): with the setup binary
exiting 0, `setup_calculation` still raises `SetupError` and does not
perform the post-invocation `.in` copy, because `Popen.returncode` was
never set by a `wait()`/`poll()` and is still `None` at the test; had
the actual exit status been observed (`setup_calculation_spec`), the
zero exit would have raised nothing and performed the redundant copy. -/
theorem setup_calculation_raises_even_on_zero_exit :
    setup_calculation { runDirExists := true, setupExitCode := 0 } =
      ([SetupOp.copyBinary "phantom", SetupOp.copyBinary "phantomsetup",
        SetupOp.copyBinary "phantom_version", SetupOp.copySetupFile,
        SetupOp.copyInFile, SetupOp.popenPhantomsetup],
       some (.setupError "Phantom failed to set up calculation")) ∧
    SetupOp.copyInFileAgain ∉
      (setup_calculation { runDirExists := true, setupExitCode := 0 }).1 ∧
    setup_calculation_spec { runDirExists := true, setupExitCode := 0 } =
      ([SetupOp.copyBinary "phantom", SetupOp.copyBinary "phantomsetup",
        SetupOp.copyBinary "phantom_version", SetupOp.copySetupFile,
        SetupOp.copyInFile, SetupOp.popenPhantomsetup,
        SetupOp.copyInFileAgain],
       none) := by decide

/-- C8: a CLI invocation whose `--run-dir`, `--run-setup-file` and
`--run-in-file` counts are not all equal raises `ValueError` in the
front end; the error result carries no orchestrator call, so no pipeline
step was started and no external command issued. -/
theorem cli_run_option_count_validation
    (pfx : String) (rd sf inf : List String) (js : Option String)
    (ps sys : String) (ef pd pv : Option String) (patch : List String)
    (h5 : Option String)
    (h : ¬ (rd.length = sf.length ∧ sf.length = inf.length)) :
    cli_invoke pfx rd sf inf js ps sys ef pd pv patch h5 =
      .error .valueError := by
  simp [cli_invoke, cli_main, h]

/-- Witness for C8 at the spec's example: two run dirs, one setup file. -/
theorem cli_run_option_count_validation_witness :
    cli_invoke "p" ["d1", "d2"] ["s1"] ["i1"] none "disc" "gfortran"
      none none none [] none = .error .valueError :=
  cli_run_option_count_validation "p" ["d1", "d2"] ["s1"] ["i1"] none
    "disc" "gfortran" none none none [] none (by decide)

/-- C9 counterexample: a CLI invocation omitting `--phantom-patch` (click
passes the empty tuple, so `_phantom_patch` is assigned `[]`) while
supplying `--phantom-extra-flags` succeeds — it does not fail with an
unbound-local-name error as the claim states. -/
theorem cli_omitted_patch_counterexample :
    except_is_ok (cli_invoke "p" ["d"] ["s"] ["i"] none "disc" "gfortran"
      (some "ISOTHERMAL=yes") none none [] none) = true := by decide

lemma main_loop_patch_assigned (a : CliArgs) (pd : String)
    (patch : List String) (fv : Option (List (List Char × List Char)))
    (ts : List (String × String × String)) :
    main_loop a pd (some patch) fv ts ≠ .error .unboundLocalPatch := by
  induction ts with
  | nil => simp [main_loop]
  | cons t ts ih =>
    obtain ⟨rd, sf, inf⟩ := t
    cases fv with
    | none => simp [main_loop]
    | some flags =>
      simp only [main_loop]
      cases hrec : main_loop a pd (some patch) (some flags) ts with
      | error e =>
        intro hc
        injection hc with he
        subst he
        exact ih hrec
      | ok calls => simp

/-- C9 (amended): omitting `--phantom-extra-flags` leaves
`_phantom_extra_flags` unassigned, so the invocation fails with an
unbound-local-name error on the first run descriptor before any
pipeline step; omitting `--phantom-patch`, however, never produces an
unbound-local error, because click supplies an empty tuple and
`_phantom_patch` is assigned the empty list. -/
theorem cli_omitted_extra_flags_unbound :
    (∀ (pfx : String) (rd sf inf : List String) (js : Option String)
        (ps sys : String) (pd pv : Option String) (patch : List String)
        (h5 : Option String),
      rd.length = sf.length → sf.length = inf.length → rd ≠ [] →
      cli_invoke pfx rd sf inf js ps sys none pd pv patch h5 =
        .error .unboundLocalExtraFlags) ∧
    (∀ (pfx : String) (rd sf inf : List String) (js : Option String)
        (ps sys : String) (ef pd pv : Option String) (patch : List String)
        (h5 : Option String),
      cli_invoke pfx rd sf inf js ps sys ef pd pv patch h5 ≠
        .error .unboundLocalPatch) := by
  constructor
  · intro pfx rd sf inf js ps sys pd pv patch h5 h1 h2 hne
    cases rd with
    | nil => exact absurd rfl hne
    | cons r rds =>
      cases sf with
      | nil => simp at h1
      | cons s sfs =>
        cases inf with
        | nil => simp at h2
        | cons i infs =>
          simp [cli_invoke, cli_main, h1, h2, zip3, main_loop]
  · intro pfx rd sf inf js ps sys ef pd pv patch h5
    by_cases hv : ¬ (rd.length = sf.length ∧ sf.length = inf.length)
    · simp [cli_invoke, cli_main, hv]
    · cases ef with
      | none =>
        simp only [cli_invoke, cli_main, if_neg hv]
        exact main_loop_patch_assigned _ _ _ _ _
      | some s =>
        simp only [cli_invoke, cli_main, if_neg hv]
        cases hc : convert_make_options_to_dict s.toList with
        | none => simp
        | some flags => exact main_loop_patch_assigned _ _ _ _ _

/-- Witness for C9's amended statement: one run descriptor, extra flags
omitted. -/
theorem cli_omitted_extra_flags_unbound_witness :
    cli_invoke "p" ["d"] ["s"] ["i"] none "disc" "gfortran" none
      none none [] none = .error .unboundLocalExtraFlags :=
  cli_omitted_extra_flags_unbound.1 "p" ["d"] ["s"] ["i"] none "disc"
    "gfortran" none none [] none rfl rfl (by decide)

lemma runSeq_all_ok (env : PipeEnv) (l : List PipeStep)
    (h : ∀ s ∈ l, stepOk env s = true) : runSeq env l = (l, true) := by
  induction l with
  | nil => rfl
  | cons x xs ih =>
    have hx := h x (List.mem_cons_self x xs)
    have hxs := ih (fun s hs => h s (List.mem_cons_of_mem x hs))
    simp [runSeq, hx, hxs]

lemma runSeq_fail_last (env : PipeEnv) (l : List PipeStep) :
    ∀ s ∈ (runSeq env l).1, stepOk env s = false →
      (runSeq env l).1.getLast? = some s := by
  induction l with
  | nil => intro s hs hfail; simp [runSeq] at hs
  | cons x xs ih =>
    intro s hs hfail
    by_cases hx : stepOk env x
    · simp only [runSeq, if_pos hx] at hs ⊢
      rcases List.mem_cons.mp hs with he | hm
      · subst he
        rw [hx] at hfail
        cases hfail
      · have hlast := ih s hm hfail
        cases ht : (runSeq env xs).1 with
        | nil => rw [ht] at hm; simp at hm
        | cons y ys =>
          rw [ht] at hlast
          rw [List.getLast?_cons_cons]
          exact hlast
    · simp only [runSeq, if_neg hx] at hs ⊢
      have hsx : s = x := by simpa using hs
      subst hsx
      simp

lemma patch_phase_eq (env : PipeEnv) (ps : List String) :
    patch_phase env ps =
      runSeq env (ps.map PipeStep.applyPatch ++
        [PipeStep.buildStep, PipeStep.setupStep]) := by
  induction ps with
  | nil =>
    by_cases hb : env.buildOk <;> by_cases hs : env.setupOk <;>
      simp [patch_phase, build_then_setup_phase, runSeq, stepOk, hb, hs]
  | cons p ps ih =>
    by_cases hp : env.patchOk p <;>
      simp [patch_phase, runSeq, stepOk, hp, ih]

/-- C1: the orchestrator runs the pipeline steps for a run descriptor in
exactly the prescribed order — get repository, checkout only when a
version is specified, the patches in the given order, build, set up —
stopping at the first failing step: it coincides with the sequential
stop-at-first-failure interpreter on the planned step list, succeeds
producing exactly the planned trace when every step succeeds, and any
failing step in its trace is the last step started. -/
theorem build_and_setup_pipeline_order (v : Option String)
    (ps : List String) (env : PipeEnv) :
    build_and_setup v ps env = runSeq env (plannedSteps v ps) ∧
    ((∀ s ∈ plannedSteps v ps, stepOk env s = true) →
      build_and_setup v ps env = (plannedSteps v ps, true)) ∧
    (∀ s ∈ (build_and_setup v ps env).1, stepOk env s = false →
      (build_and_setup v ps env).1.getLast? = some s) := by
  have heq : build_and_setup v ps env = runSeq env (plannedSteps v ps) := by
    cases v with
    | none =>
      by_cases hg : env.getRepoOk <;>
        simp [build_and_setup, plannedSteps, runSeq, stepOk, hg, patch_phase_eq]
    | some vv =>
      by_cases hg : env.getRepoOk <;> by_cases hc : env.checkoutOk <;>
        simp [build_and_setup, plannedSteps, runSeq, stepOk, hg, hc,
          patch_phase_eq]
  refine ⟨heq, ?_, ?_⟩
  · intro h
    rw [heq, runSeq_all_ok env _ h]
  · rw [heq]
    exact runSeq_fail_last env (plannedSteps v ps)

/-- Witness for C1: a version and one patch, all steps succeeding — the
executed trace is exactly the planned step list. -/
theorem build_and_setup_pipeline_order_witness :
    build_and_setup (some "abc123") ["fix.patch"]
        { getRepoOk := true, checkoutOk := true, patchOk := fun _ => true,
          buildOk := true, setupOk := true } =
      (plannedSteps (some "abc123") ["fix.patch"], true) :=
  (build_and_setup_pipeline_order (some "abc123") ["fix.patch"]
      { getRepoOk := true, checkoutOk := true, patchOk := fun _ => true,
        buildOk := true, setupOk := true }).2.1 (by decide)
